import Mathlib

set_option autoImplicit false

/-!
Verification of the bevscan invoice-parsing pipeline.

This file shallowly embeds the core of the Python pipeline
(`modules/parsing/pipeline.py`, `modules/parsing/validators/*.py`,
`modules/ocr/engine.py`, `modules/llm/ollama_client.py`) into Lean:

* JSON-like Python values become the inductive type `Val`, with Python
  truthiness (`truthy`) and dictionary access (`getKey`, `objSet`).
* Python floats become exact rationals (`ℚ`); arithmetic and comparisons
  are the exact rational idealisation of IEEE doubles (every concrete
  input used in a theorem below evaluates identically in both).
* A Python statement that can raise is embedded as `Except`, with the
  corresponding `try/except` boundary catching the `.error` case; the
  `.error` payload carries the state mutated so far, mirroring in-place
  dictionary mutation.

Alert dictionaries carry a `type`, a human-readable `message` and a
`severity`; the message text (an f-string with float formatting) and the
`details` sub-dictionary are not modelled, as no property below concerns
them.
-/

namespace BevScan

/-- JSON-like Python value: the data that flows between pipeline stages
(`json.loads` output, parsed invoice records, line items). Numbers are
exact rationals standing in for Python floats/ints. -/
inductive Val where
  | null
  | bool (b : Bool)
  | num (q : ℚ)
  | str (s : String)
  | arr (l : List Val)
  | obj (l : List (String × Val))

/-- Python truthiness (`bool(v)`): `None`, `False`, `0`, `""`, `[]`, `{}`
are falsy, everything else truthy. -/
def truthy : Val → Bool
  | .null => false
  | .bool b => b
  | .num q => decide (q ≠ 0)
  | .str s => decide (s ≠ "")
  | .arr [] => false
  | .arr (_ :: _) => true
  | .obj [] => false
  | .obj (_ :: _) => true

/-- Lookup in a Python dict (association list with unique keys):
`d[k]` / `d.get(k)` returns the entry for `k`, if any. -/
def getKey (l : List (String × Val)) (k : String) : Option Val :=
  match l with
  | [] => none
  | (k₀, v) :: rest => if k₀ = k then some v else getKey rest k

/-- In-place dict assignment `d[k] = v`: replaces the entry for `k`,
appending it when absent (Python dicts have unique keys). -/
def objSet (l : List (String × Val)) (k : String) (v : Val) : List (String × Val) :=
  if l.any (fun p => decide (p.1 = k)) then l.map (fun p => if p.1 = k then (k, v) else p)
  else l ++ [(k, v)]

/-- Numeric view used by Python arithmetic and comparisons: numbers are
themselves, booleans count as `0`/`1` (Python `bool` is an `int`); other
values raise `TypeError` in arithmetic, modelled as `none`. -/
def pyNum : Val → Option ℚ
  | .num q => some q
  | .bool b => some (if b then 1 else 0)
  | _ => none

/-- Python `for x in v`: lists iterate elements, strings iterate
one-character strings, dicts iterate keys; other values raise
`TypeError`. -/
def pyIter : Val → Except String (List Val)
  | .arr l => .ok l
  | .str s => .ok (s.toList.map (fun c => Val.str (String.mk [c])))
  | .obj l => .ok (l.map (fun p => Val.str p.1))
  | _ => .error "TypeError: object is not iterable"

/-- Model of Python `str()` as used to build duplicate-detection keys in
f-strings. Faithful for strings, `None` and booleans; the numeric and
container renderings are simplified stand-ins (no theorem below evaluates
`pyStr` on those constructors). -/
def pyStr : Val → String
  | .str s => s
  | .null => "None"
  | .bool true => "True"
  | .bool false => "False"
  | .num q => toString q
  | .arr _ => "[list]"
  | .obj _ => "[dict]"

/-- A validator alert as produced by the pipeline: the `type` and
`severity` string fields of the Python alert dict (message text and
details are not modelled). -/
structure Alert where
  type : String
  severity : String
deriving DecidableEq

/-! ## Text preprocessing (`InvoiceParsingPipeline._preprocess_text`) -/

/-- Accumulator-style splitter behind `pySplitWs`. -/
def splitWsAux : List Char → List Char → List (List Char)
  | [], [] => []
  | [], acc => [acc.reverse]
  | c :: cs, acc =>
    if c.isWhitespace then
      match acc with
      | [] => splitWsAux cs []
      | _ :: _ => acc.reverse :: splitWsAux cs []
    else splitWsAux cs (c :: acc)

/-- Python `text.split()` with no argument: split on runs of whitespace,
discarding empty fields. -/
def pySplitWs (s : String) : List String :=
  (splitWsAux s.toList []).map String.mk

/-- Python `str.replace(a, b)` for single-character arguments: a
character-wise map. -/
def replaceChar (s : String) (a b : Char) : String :=
  String.mk (s.toList.map (fun c => if c = a then b else c))

/-- Python `str.replace(a, '')` for a single-character pattern and an
empty replacement: delete every occurrence of the character. -/
def removeChar (s : String) (a : Char) : String :=
  String.mk (s.toList.filter (fun c => decide (c ≠ a)))

/-- Python `str.lower()` on the ASCII extension strings it is applied
to. -/
def lowerAscii (s : String) : String :=
  String.mk (s.toList.map Char.toLower)

/-- `InvoiceParsingPipeline._preprocess_text` (pipeline.py lines 120-132):
collapse whitespace runs to single spaces, replace every `|` with `I` and
every `0` with `O`, then wrap with the fixed instructional header and
footer. -/
def preprocess_text (text : String) : String :=
  let t := String.intercalate " " (pySplitWs text)
  let t := replaceChar t '|' 'I'
  let t := replaceChar t '0' 'O'
  "INVOICE TEXT:\n" ++ t ++ "\n\nPlease extract structured data from this invoice."

/-! ## Price validator (`validators/price_validator.py`)

The historical-price lookup `PriceValidator._get_historical_price` is the
injectable capability of the spec; the source stub always returns `None`
(`get_historical_price_stub`). `PriceValidator.validate` is embedded with
the lookup as an explicit parameter `histFn`, applied to the vendor and
the item description exactly where the source calls the method. -/

/-- The source's `_get_historical_price` (price_validator.py lines
146-153): the placeholder always returns `None` (no history). -/
def get_historical_price_stub : Val → Val → Option ℚ :=
  fun _ _ => none

/-- Exception-explicit body of `PriceValidator._validate_item_price`
(price_validator.py lines 52-101). `.error alerts` means an exception was
raised with `alerts` accumulated so far; the method's own
`try/except` turns both cases into the plain alert list
(`validate_item_price`). The branches mirror the source statement by
statement: a falsy `unit_price` returns no alerts; a truthy historical
price triggers the relative-change comparison (raising `TypeError` when
`unit_price` is not numeric); afterwards `unit_price > 100` is flagged
(raising `TypeError` for a non-numeric `unit_price`, with the
already-appended discrepancy alert kept). -/
def validate_item_price_inner (threshold : ℚ) (histFn : Val → Val → Option ℚ)
    (vendor : Val) (item : Val) : Except (List Alert) (List Alert) :=
  match item with
  | .obj l =>
    let description := (getKey l "description").getD (.str "Unknown Item")
    let unit_price := (getKey l "unit_price").getD .null
    if truthy unit_price = false then .ok []
    else
      let hist := histFn vendor description
      match hist, pyNum unit_price with
      | some h, some up =>
        if h = 0 then
          .ok (if up > 100 then [⟨"unusual_price", "low"⟩] else [])
        else
          let price_change := |up - h| / h
          let alerts :=
            if threshold < price_change then
              [⟨"price_discrepancy", if price_change < 1/5 then "medium" else "high"⟩]
            else []
          .ok (alerts ++ (if up > 100 then [⟨"unusual_price", "low"⟩] else []))
      | some _, none => .error []
      | none, some up => .ok (if up > 100 then [⟨"unusual_price", "low"⟩] else [])
      | none, none => .error []
  | _ => .error []

/-- `PriceValidator._validate_item_price`: the per-item `try/except`
swallows any exception and returns the alerts accumulated so far. -/
def validate_item_price (threshold : ℚ) (histFn : Val → Val → Option ℚ)
    (vendor : Val) (item : Val) : List Alert :=
  match validate_item_price_inner threshold histFn vendor item with
  | .ok a => a
  | .error a => a

/-- `PriceValidator._validate_total_amount` (price_validator.py lines
103-144). Its `try/except` swallows exceptions; the first possible raise
point (`subtotal + tax` / `abs(total - calculated_total)`) precedes any
alert append, so any non-numeric field yields the empty alert list, and
the numeric path runs both checks. -/
def validate_total_amount (d : Val) : List Alert :=
  match d with
  | .obj l =>
    let total := (getKey l "total").getD .null
    let subtotal := (getKey l "subtotal").getD (.num 0)
    let tax := (getKey l "tax").getD (.num 0)
    if truthy total = false then []
    else
      match pyNum total, pyNum subtotal, pyNum tax with
      | some t, some s, some x =>
        (if |t - (s + x)| > 1/100 then [⟨"total_mismatch", "medium"⟩] else []) ++
        (if t > 10000 then [⟨"high_total", "low"⟩] else [])
      | _, _, _ => []
  | _ => []

/-- Exception-explicit body of `PriceValidator.validate`
(price_validator.py lines 20-50): reads `vendor_name` and `items`
(raising `AttributeError` when the record is not a dict), iterates the
items (raising `TypeError` when `items` is not iterable) and appends the
total-amount alerts. Item-level and total-level exceptions are already
caught inside the helpers, so only the two reads above can reach this
boundary. -/
def price_validate_inner (threshold : ℚ) (histFn : Val → Val → Option ℚ)
    (d : Val) : Except String (List Alert) :=
  match d with
  | .obj l =>
    let vendor := (getKey l "vendor_name").getD (.str "Unknown")
    let items := (getKey l "items").getD (.arr [])
    match pyIter items with
    | .error e => .error e
    | .ok itemList =>
      .ok ((itemList.map (validate_item_price threshold histFn vendor)).flatten ++
           validate_total_amount d)
  | _ => .error "AttributeError"

/-- `PriceValidator.validate`: the validator's own `try/except` converts
an escaping exception into a single high-severity
`price_validation_error` alert. -/
def price_validate (threshold : ℚ) (histFn : Val → Val → Option ℚ)
    (d : Val) : List Alert :=
  match price_validate_inner threshold histFn d with
  | .ok a => a
  | .error _ => [⟨"price_validation_error", "high"⟩]

/-! ## Duplicate validator (`validators/duplicate_validator.py`) -/

/-- Exception-explicit body of `DuplicateValidator.validate`
(duplicate_validator.py lines 18-72). The state is the in-memory
`processed_invoices` set of `"vendor:invoice_number"` keys. A falsy
invoice number short-circuits with the `missing_invoice_number` alert and
no key recording; otherwise the key is checked against the set
(`_is_duplicate_invoice_number`), the similar-invoice placeholder
contributes nothing (`_find_similar_invoices` returns `[]`), and the key
is recorded (`_add_processed_invoice`). A non-dict record raises
`AttributeError` at the first `.get`. -/
def dup_validate_inner (seen : List String) (d : Val) :
    Except String (List Alert × List String) :=
  match d with
  | .obj l =>
    let invoice_number := (getKey l "invoice_number").getD .null
    let vendor := (getKey l "vendor_name").getD (.str "Unknown")
    if truthy invoice_number = false then
      .ok ([⟨"missing_invoice_number", "high"⟩], seen)
    else
      let key := pyStr vendor ++ ":" ++ pyStr invoice_number
      let alerts := if seen.contains key then [⟨"duplicate_invoice_number", "high"⟩] else []
      .ok (alerts, key :: seen)
  | _ => .error "AttributeError"

/-- `DuplicateValidator.validate`: the validator's own `try/except`
converts an escaping exception into a single high-severity
`duplicate_validation_error` alert, leaving the set unchanged. -/
def dup_validate (seen : List String) (d : Val) : List Alert × List String :=
  match dup_validate_inner seen d with
  | .ok r => r
  | .error _ => ([⟨"duplicate_validation_error", "high"⟩], seen)

/-! ## Validation chain (`InvoiceParsingPipeline._validate_data`) -/

/-- `InvoiceParsingPipeline._validate_data` (pipeline.py lines 235-256):
runs the price validator then the duplicate validator and concatenates
their alerts. The pipeline-level `try/except` (which would append a
`validation_error` alert) is unreachable: each validator's own handler
catches every exception its body can raise, so the two `validate` calls
never throw, and the model is total. -/
def validate_data (threshold : ℚ) (histFn : Val → Val → Option ℚ)
    (seen : List String) (d : Val) : List Alert × List String :=
  (price_validate threshold histFn d ++ (dup_validate seen d).1,
   (dup_validate seen d).2)

/-! ## Python `float()` and the type-coercion stage
(`InvoiceParsingPipeline._convert_data_types`, pipeline.py lines 203-233) -/

/-- Strip leading and trailing whitespace from a character list
(Python `str.strip()`). -/
def stripWs (l : List Char) : List Char :=
  ((l.dropWhile Char.isWhitespace).reverse.dropWhile Char.isWhitespace).reverse

/-- Numeric value of a digit string (most significant first). -/
def digitsVal (l : List Char) : ℕ :=
  l.foldl (fun a c => a * 10 + (c.toNat - 48)) 0

/-- Exponent part of a float literal: optional sign then at least one
digit; yields the factor `10 ^ e`. -/
def parseExp (l : List Char) : Option ℚ :=
  let (esign, l₁) : ℤ × List Char :=
    match l with
    | '+' :: r => (1, r)
    | '-' :: r => (-1, r)
    | _ => (1, l)
  if l₁ = [] ∨ ¬ l₁.all Char.isDigit then none
  else some ((10 : ℚ) ^ (esign * (digitsVal l₁ : ℤ)))

/-- Model of Python `float(s)` on string input: strip whitespace, then an
optional sign, digits with an optional fractional part and an optional
exponent; anything else raises `ValueError`, modelled as `none`. (The
`inf`/`nan` literals and underscore digit separators accepted by CPython
are not modelled; no value in this development exercises them.) -/
def pyFloatString (s : String) : Option ℚ :=
  let l := stripWs s.toList
  let (sign, l₁) : ℚ × List Char :=
    match l with
    | '+' :: r => (1, r)
    | '-' :: r => (-1, r)
    | _ => (1, l)
  let intPart := l₁.takeWhile Char.isDigit
  let rest := l₁.dropWhile Char.isDigit
  match rest with
  | [] => if intPart = [] then none else some (sign * digitsVal intPart)
  | '.' :: rest₁ =>
    let frac := rest₁.takeWhile Char.isDigit
    let rest₂ := rest₁.dropWhile Char.isDigit
    if intPart = [] ∧ frac = [] then none
    else
      let mant : ℚ := sign * ((digitsVal intPart : ℚ) + (digitsVal frac : ℚ) / (10 : ℚ) ^ frac.length)
      match rest₂ with
      | [] => some mant
      | 'e' :: rest₃ => (parseExp rest₃).map (fun f => mant * f)
      | 'E' :: rest₃ => (parseExp rest₃).map (fun f => mant * f)
      | _ => none
  | 'e' :: rest₁ =>
    if intPart = [] then none
    else (parseExp rest₁).map (fun f => sign * (digitsVal intPart : ℚ) * f)
  | 'E' :: rest₁ =>
    if intPart = [] then none
    else (parseExp rest₁).map (fun f => sign * (digitsVal intPart : ℚ) * f)
  | _ => none

/-- The money coercion `float(str(v).replace('$', '').replace(',', ''))`
used for `total`, `subtotal`, `tax`, `unit_price` and item `total`:
numbers round-trip through `str`; strings are parsed after stripping `$`
and `,`; every other value makes `float` raise (`none`). -/
def coerceMoney (v : Val) : Option ℚ :=
  match v with
  | .num q => some q
  | .str s => pyFloatString (removeChar (removeChar s '$') ',')
  | _ => none

/-- The quantity coercion `float(v)` (no `str` wrapper): numbers are
themselves, booleans are `0`/`1`, strings are parsed; other values raise
`TypeError` (`none`). Both `ValueError` and `TypeError` are caught by the
quantity handler. -/
def pyFloatVal : Val → Option ℚ
  | .num q => some q
  | .bool b => some (if b then 1 else 0)
  | .str s => pyFloatString s
  | _ => none

/-- Whether `k in v` holds for a Python membership test on a string
(substring) or list (element equality with the string `k`). -/
def memberStr (k : String) : Val → Bool
  | .str s => decide (k.toList <:+: s.toList)
  | .arr l => l.any (fun v => match v with | .str s => s == k | _ => false)
  | _ => false

/-- One money field of a dict: `if k in d and d[k]: d[k] = float(...)`.
`.error` carries the dict as mutated so far when the parse raises. -/
def coerceField (l : List (String × Val)) (k : String) :
    Except (List (String × Val)) (List (String × Val)) :=
  match getKey l k with
  | some v =>
    if truthy v then
      match coerceMoney v with
      | some q => .ok (objSet l k (.num q))
      | none => .error l
    else .ok l
  | none => .ok l

/-- One line item of the `items` loop (pipeline.py lines 216-228),
exception-explicit: the quantity step never raises (its own
`except (ValueError, TypeError)` substitutes the default `1.0`); the
`unit_price` and `total` steps raise on an unparseable value, carrying
the item as mutated so far. A non-dict item raises at the first `in`
test (for a string or list item, a membership hit raises at the
subscript instead). -/
def convert_item (item : Val) : Except Val Val :=
  match item with
  | .obj l =>
    let l₁ :=
      match getKey l "quantity" with
      | some q => if truthy q then objSet l "quantity" (.num ((pyFloatVal q).getD 1)) else l
      | none => l
    match coerceField l₁ "unit_price" with
    | .error l₂ => .error (.obj l₂)
    | .ok l₂ =>
      match coerceField l₂ "total" with
      | .error l₃ => .error (.obj l₃)
      | .ok l₃ => .ok (.obj l₃)
  | .str _ | .arr _ =>
    if memberStr "quantity" item ∨ memberStr "unit_price" item ∨ memberStr "total" item then
      .error item
    else .ok item
  | _ => .error item

/-- The `for item in data['items']` loop with in-place mutation: on an
exception at some item, already-processed items keep their coerced
values, the failing item is kept as mutated so far, and later items are
untouched. -/
def convert_items : List Val → Except (List Val) (List Val)
  | [] => .ok []
  | it :: rest =>
    match convert_item it with
    | .error it₁ => .error (it₁ :: rest)
    | .ok it₁ =>
      match convert_items rest with
      | .error rest₁ => .error (it₁ :: rest₁)
      | .ok rest₁ => .ok (it₁ :: rest₁)

/-- Exception-explicit body of `InvoiceParsingPipeline._convert_data_types`
(pipeline.py lines 203-233): coerce `total`, `subtotal`, `tax` in order,
then the items loop when `items` is present and a list. `.error` carries
the record as mutated up to the raise point. A non-dict record raises at
the first `in` test (or, for a string or list record, at the subscript
after a membership hit), in every case before any mutation. -/
def convert_data_types_inner (d : Val) : Except Val Val :=
  match d with
  | .obj l =>
    match coerceField l "total" with
    | .error l₁ => .error (.obj l₁)
    | .ok l₁ =>
      match coerceField l₁ "subtotal" with
      | .error l₂ => .error (.obj l₂)
      | .ok l₂ =>
        match coerceField l₂ "tax" with
        | .error l₃ => .error (.obj l₃)
        | .ok l₃ =>
          match getKey l₃ "items" with
          | some (.arr items) =>
            match convert_items items with
            | .error items₁ => .error (.obj (objSet l₃ "items" (.arr items₁)))
            | .ok items₁ => .ok (.obj (objSet l₃ "items" (.arr items₁)))
          | _ => .ok (.obj l₃)
  | .str _ | .arr _ =>
    if memberStr "total" d ∨ memberStr "subtotal" d ∨ memberStr "tax" d ∨
        memberStr "items" d then
      .error d
    else .ok d
  | _ => .error d

/-- `InvoiceParsingPipeline._convert_data_types`: the stage-level bare
`except` returns the record at whatever mutation state the exception
left it in (`data` is mutated in place, and the handler returns that same
object). -/
def convert_data_types (d : Val) : Val :=
  match convert_data_types_inner d with
  | .ok d₁ => d₁
  | .error d₁ => d₁

/-- Whether the coercion stage's `except` handler fired for this record. -/
def conversionRaised (d : Val) : Bool :=
  match convert_data_types_inner d with
  | .ok _ => false
  | .error _ => true

/-! ## Structure validation and pipeline orchestration
(`InvoiceParsingPipeline._validate_parsed_data`, `parse_invoice`) -/

/-- Whether a required field of a dict is present and truthy: the
negation of `field not in data or not data[field]`. -/
def fieldTruthy (l : List (String × Val)) (f : String) : Bool :=
  match getKey l f with
  | some v => truthy v
  | none => false

/-- One required-field test of `_validate_parsed_data`,
exception-explicit: on a non-dict record the membership test or the
subscript raises (`TypeError` for numbers and the like; for a string or
list record a membership hit raises at the subscript, a miss
short-circuits to the `return False` branch). -/
def requiredFieldOk (d : Val) (f : String) : Except Unit Bool :=
  match d with
  | .obj l => .ok (fieldTruthy l f)
  | .str _ | .arr _ => if memberStr f d then .error () else .ok false
  | _ => .error ()

/-- The `for field in required_fields` loop: short-circuits at the first
missing or falsy field. -/
def checkRequired (d : Val) : List String → Except Unit Bool
  | [] => .ok true
  | f :: fs =>
    match requiredFieldOk d f with
    | .error e => .error e
    | .ok false => .ok false
    | .ok true => checkRequired d fs

/-- Whether one `items` element is a dict containing the keys
`description` and `total` (key presence only). -/
def itemHasKeys (it : Val) : Bool :=
  match it with
  | .obj il => (il.any (fun p => p.1 == "description")) && (il.any (fun p => p.1 == "total"))
  | _ => false

/-- The items-structure test of `_validate_parsed_data`: when `items` is
present and a list, every element must satisfy `itemHasKeys`. Anything
else passes. -/
def itemsStructureOk (d : Val) : Bool :=
  match d with
  | .obj l =>
    match getKey l "items" with
    | some (.arr items) => items.all itemHasKeys
    | _ => true
  | _ => true

/-- Exception-explicit `InvoiceParsingPipeline._validate_parsed_data`
(pipeline.py lines 185-201): the required-field loop over
`vendor_name, invoice_number, invoice_date, total`, then the items
structure check. An exception here is caught by
`_extract_structured_data`'s `try`. -/
def validate_parsed_data (d : Val) : Except Unit Bool :=
  match checkRequired d ["vendor_name", "invoice_number", "invoice_date", "total"] with
  | .error e => .error e
  | .ok false => .ok false
  | .ok true => .ok (itemsStructureOk d)

/-- `InvoiceParsingPipeline._extract_structured_data` (pipeline.py lines
134-183), with the LLM backend abstracted as the response it returns for
the prompt built around the preprocessed text (`llm`; `.error` is an
exception raised by `generate_structured`, caught by this method's
`try`). On a structurally valid response the stage reports the fixed
confidence `0.9`; otherwise it fails with an error string, which makes
`parse_invoice` abort. The prompt scaffolding around the text is not
modelled (the response function consumes the preprocessed text). -/
def extract_structured_data (llm : String → Except String Val) (text : String) :
    Except String (Val × ℚ) :=
  match llm text with
  | .error e => .error e
  | .ok response =>
    match validate_parsed_data response with
    | .error _ => .error "TypeError"
    | .ok true => .ok (response, 9/10)
    | .ok false => .error "Invalid data structure returned by LLM"

/-- Result dictionary of `InvoiceParsingPipeline.parse_invoice`. Failure
dictionaries in the source carry only `success`, `error` and `details`;
the remaining fields are defaulted here (`error` is `""` on success).
The `raw_text` and timestamp fields are not modelled. -/
structure PipeResult where
  success : Bool
  error : String
  parsed_data : Val
  alerts : List Alert
  confidence_score : ℚ

/-- Outcome of the OCR stage as read by the pipeline: the `success`,
`text` and `confidence` entries of the extraction-result dict (plus the
`error` entry of a failure dict). -/
structure OcrRes where
  success : Bool
  text : String
  confidence : ℚ
  error : String
deriving DecidableEq

/-- `InvoiceParsingPipeline.parse_invoice` (pipeline.py lines 35-109)
from the OCR stage's result on: abort with `"OCR extraction failed"` on
OCR failure; preprocess the text; abort with `"LLM extraction failed"`
when structured extraction fails; coerce types; run the validation
chain (which never fails); report success with the mean of the OCR and
LLM confidences. The duplicate-validator state is threaded through. -/
def parse_invoice (ocrRes : OcrRes) (llm : String → Except String Val)
    (threshold : ℚ) (histFn : Val → Val → Option ℚ) (seen : List String) :
    PipeResult × List String :=
  if ocrRes.success = false then
    ({ success := false, error := "OCR extraction failed",
       parsed_data := .null, alerts := [], confidence_score := 0 }, seen)
  else
    let processed := preprocess_text ocrRes.text
    match extract_structured_data llm processed with
    | .error _ =>
      ({ success := false, error := "LLM extraction failed",
         parsed_data := .null, alerts := [], confidence_score := 0 }, seen)
    | .ok (data, llm_conf) =>
      let data₁ := convert_data_types data
      ({ success := true, error := "",
         parsed_data := data₁,
         alerts := (validate_data threshold histFn seen data₁).1,
         confidence_score := (ocrRes.confidence + llm_conf) / 2 },
       (validate_data threshold histFn seen data₁).2)

/-! ## OCR extraction manager (`modules/ocr/engine.py`) -/

/-- `OCREngine` statistics dict (engine.py lines 30-35). -/
structure EngineStats where
  total_processed : ℕ
  successful_extractions : ℕ
  failed_extractions : ℕ
  average_confidence : ℚ
deriving DecidableEq

/-- `OCREngine._update_stats` (engine.py lines 119-134): always bump
`total_processed`; on success bump `successful_extractions` and fold the
confidence into the running mean over successful extractions; on failure
bump `failed_extractions`. -/
def update_stats (stats : EngineStats) (r : OcrRes) : EngineStats :=
  let stats₁ := { stats with total_processed := stats.total_processed + 1 }
  if r.success then
    let n := stats₁.successful_extractions + 1
    { stats₁ with
      successful_extractions := n,
      average_confidence :=
        (stats₁.average_confidence * ((n : ℚ) - 1) + r.confidence) / (n : ℚ) }
  else
    { stats₁ with failed_extractions := stats₁.failed_extractions + 1 }

/-- `OCREngine._validate_file` (engine.py lines 79-88): the file must
exist (taken as a boolean input, the result of `os.path.exists`) and its
extension (the `Path.suffix` of the path, taken as an input string) must
be in the fixed supported set. -/
def validate_file (fileExists : Bool) (ext : String) : Bool :=
  fileExists && [".pdf", ".png", ".jpg", ".jpeg", ".tiff", ".bmp"].contains (lowerAscii ext)

/-- `OCREngine._extract_with_engine` (engine.py lines 100-117): dispatch
on the engine name; an unknown name yields a failure dict. The two
adapters are abstracted by the results they return for the file (an
adapter exception is already folded into a failure result by this
method's `try/except`). -/
def extract_with_engine (tess easy : OcrRes) : String → OcrRes
  | "tesseract" => tess
  | "easyocr" => easy
  | name => { success := false, text := "", confidence := 0,
              error := "Unknown OCR engine: " ++ name }

/-- `OCREngine.extract_text` (engine.py lines 37-77): reject an invalid
file before any engine call (no stats update); otherwise invoke the
primary engine, fall back to `easyocr` exactly when the primary failed
and the primary is not already `easyocr`, and update the stats with the
final result. The third component lists the engine names invoked, in
order (image preprocessing is the identity hook and the temp-file
cleanup is I/O only; neither affects the result). -/
def extract_text (fileExists : Bool) (ext : String) (primary : String)
    (tess easy : OcrRes) (stats : EngineStats) :
    OcrRes × EngineStats × List String :=
  if validate_file fileExists ext = false then
    ({ success := false, text := "", confidence := 0,
       error := "Invalid file format or file not found" }, stats, [])
  else
    let r₁ := extract_with_engine tess easy primary
    let (result, calls) :=
      if r₁.success = false ∧ primary ≠ "easyocr" then
        (extract_with_engine tess easy "easyocr", [primary, "easyocr"])
      else (r₁, [primary])
    (result, update_stats stats result, calls)

/-! ## Structured-extraction client JSON recovery
(`OllamaClient.generate_structured`, modules/llm/ollama_client.py lines 31-76) -/

/-- Index of the first occurrence of a character in a list, if any. -/
def findAux (c : Char) : List Char → Option ℕ
  | [] => none
  | a :: rest => if a = c then some 0 else (findAux c rest).map (· + 1)

/-- Python `s.find(c)` for a single character: first index, `-1` when
absent. -/
def pyFind (s : String) (c : Char) : Int :=
  match findAux c s.toList with
  | some n => (n : Int)
  | none => -1

/-- Python `s.rfind(c)` for a single character: last index, `-1` when
absent. -/
def pyRfind (s : String) (c : Char) : Int :=
  match findAux c s.toList.reverse with
  | some n => (s.toList.length - 1 - n : Int)
  | none => -1

/-- Python slice `s[a:b]` for nonnegative bounds. -/
def pySlice (s : String) (a b : ℕ) : String :=
  String.mk ((s.toList.drop a).take (b - a))

/-- Python `s.strip()`. -/
def pyStrip (s : String) : String :=
  String.mk (stripWs s.toList)

/-- Failure modes of `generate_structured`: the `ValueError("No JSON
found in response")` that escapes when the primary extraction finds no
braces (it is not a `json.JSONDecodeError`, so nothing catches it), and
the final `Exception("Failed to parse JSON response: ...")` after the
repair pass also fails. -/
inductive GSErr where
  | noJsonFound
  | malformedJson
deriving DecidableEq

/-- JSON-recovery logic of `OllamaClient.generate_structured`
(ollama_client.py lines 44-76), from the backend's response text on.
`json.loads` is the external JSON parser, abstracted as `loads` (`none`
is a `json.JSONDecodeError`). Primary pass: slice from the first `{` to
the last `}` and parse. On a parse failure, one repair pass: strip the
text, cut from the first `{` when present and to the last `}` when
present, and parse once more; a second failure is final. The second
component records each string passed to `loads`, in order. -/
def generate_structured (loads : String → Option Val) (response_text : String) :
    Except GSErr Val × List String :=
  let start_idx := pyFind response_text '{'
  let end_idx := pyRfind response_text '}' + 1
  if start_idx ≠ -1 ∧ end_idx ≠ 0 then
    let json_str := pySlice response_text start_idx.toNat end_idx.toNat
    match loads json_str with
    | some v => (.ok v, [json_str])
    | none =>
      let cleaned := pyStrip response_text
      let cleaned :=
        if cleaned.toList.contains '{' then
          pySlice cleaned (pyFind cleaned '{').toNat cleaned.toList.length
        else cleaned
      let cleaned :=
        if cleaned.toList.contains '}' then
          pySlice cleaned 0 ((pyRfind cleaned '}').toNat + 1)
        else cleaned
      match loads cleaned with
      | some v => (.ok v, [json_str, cleaned])
      | none => (.error .malformedJson, [json_str, cleaned])
  else
    (.error .noJsonFound, [])

/-- Concrete invoice record whose `items` entry is the number `5`
(not a list): structurally valid for extraction, but iterating it inside
`PriceValidator.validate` raises `TypeError`. -/
def itemsNotIterableRecord : Val :=
  .obj [("vendor_name", .str "ACME"), ("invoice_number", .str "INV-7"),
        ("invoice_date", .str "2024-01-01"), ("items", .num 5),
        ("total", .num 100), ("subtotal", .num 90), ("tax", .num 10)]

/-! ## Helper lemmas -/

theorem toList_append (a b : String) : (a ++ b).toList = a.toList ++ b.toList := by
  cases a
  cases b
  rfl

theorem mk_toList (s : String) : String.mk s.toList = s := by
  cases s
  rfl

theorem bool_eq_false {b : Bool} (h : ¬ b = true) : b = false := by
  cases b
  · rfl
  · exact absurd rfl h

theorem getKey_map_set (l : List (String × Val)) (k : String) (v : Val)
    (hl : l.any (fun p => decide (p.1 = k)) = true) :
    getKey (l.map (fun p => if p.1 = k then (k, v) else p)) k = some v := by
  induction l with
  | nil => simp at hl
  | cons p rest ih =>
    simp only [List.map_cons]
    by_cases hp : p.1 = k
    · rw [if_pos hp]
      simp [getKey]
    · rw [if_neg hp]
      have hl₁ : rest.any (fun p => decide (p.1 = k)) = true := by
        simpa [hp] using hl
      simp [getKey, hp, ih hl₁]

theorem getKey_map_set_other (l : List (String × Val)) (k k' : String) (v : Val)
    (hne : k' ≠ k) :
    getKey (l.map (fun p => if p.1 = k then (k, v) else p)) k' = getKey l k' := by
  induction l with
  | nil => rfl
  | cons p rest ih =>
    simp only [List.map_cons]
    by_cases hp : p.1 = k
    · rw [if_pos hp]
      have hpk : p.1 ≠ k' := fun h => hne (h ▸ hp)
      simp [getKey, Ne.symm hne, hpk, ih]
    · rw [if_neg hp]
      by_cases hk : p.1 = k'
      · simp [getKey, hk]
      · simp [getKey, hk, ih]

theorem getKey_append_single (l : List (String × Val)) (k k' : String) (v : Val)
    (hne : k' ≠ k) : getKey (l ++ [(k, v)]) k' = getKey l k' := by
  induction l with
  | nil => simp [getKey, Ne.symm hne]
  | cons p rest ih =>
    by_cases hk : p.1 = k'
    · simp [getKey, hk]
    · simp [getKey, hk, ih]

theorem getKey_append_single_self (l : List (String × Val)) (k : String) (v : Val)
    (hl : l.any (fun p => decide (p.1 = k)) = false) : getKey (l ++ [(k, v)]) k = some v := by
  induction l with
  | nil => simp [getKey]
  | cons p rest ih =>
    have hp : p.1 ≠ k := by
      intro h
      simp [List.any_cons, h] at hl
    have hl₁ : rest.any (fun p => decide (p.1 = k)) = false := by simpa [hp] using hl
    simp [getKey, hp, ih hl₁]

theorem getKey_objSet_self (l : List (String × Val)) (k : String) (v : Val) :
    getKey (objSet l k v) k = some v := by
  unfold objSet
  by_cases h : l.any (fun p => decide (p.1 = k))
  · rw [if_pos h]
    exact getKey_map_set l k v h
  · rw [if_neg h]
    exact getKey_append_single_self l k v (bool_eq_false h)

theorem getKey_objSet_other (l : List (String × Val)) (k k' : String) (v : Val)
    (hne : k' ≠ k) : getKey (objSet l k v) k' = getKey l k' := by
  unfold objSet
  by_cases h : l.any (fun p => decide (p.1 = k))
  · rw [if_pos h]
    exact getKey_map_set_other l k k' v hne
  · rw [if_neg h]
    exact getKey_append_single l k k' v hne

theorem toList_mk (l : List Char) : (String.mk l).toList = l := rfl

theorem mem_replaceChar {s : String} {a b c : Char} (h : c ∈ (replaceChar s a b).toList) :
    c = b ∨ (c ∈ s.toList ∧ c ≠ a) := by
  unfold replaceChar at h
  rw [toList_mk] at h
  rcases List.mem_map.mp h with ⟨x, hx, hfx⟩
  by_cases hxa : x = a
  · left
    rw [if_pos hxa] at hfx
    exact hfx.symm
  · right
    rw [if_neg hxa] at hfx
    exact ⟨hfx ▸ hx, hfx ▸ hxa⟩

/-- C10: the text preprocessing step replaces every `|` with `I` and
every `0` with the letter `O` before handing the text to structured
extraction: no `0` (and no `|`) survives in the preprocessed text, and
on a sample OCR fragment every zero of the numeric amounts is corrupted
into `O`. -/
theorem c10_zero_corruption :
    (∀ text : String,
      '0' ∉ (preprocess_text text).toList ∧ '|' ∉ (preprocess_text text).toList) ∧
    preprocess_text "TOTAL: $10.00 | Qty 20" =
      "INVOICE TEXT:\nTOTAL: $1O.OO I Qty 2O\n\nPlease extract structured data from this invoice." := by
  constructor
  · intro text
    have hsplit : (preprocess_text text).toList =
        ("INVOICE TEXT:\n".toList ++
          (replaceChar (replaceChar (String.intercalate " " (pySplitWs text)) '|' 'I') '0' 'O').toList) ++
        "\n\nPlease extract structured data from this invoice.".toList := by
      unfold preprocess_text
      rw [toList_append, toList_append]
    constructor
    · intro hmem
      rw [hsplit] at hmem
      rcases List.mem_append.mp hmem with h | h
      · rcases List.mem_append.mp h with h | h
        · exact absurd h (by decide)
        · rcases mem_replaceChar h with h | ⟨_, h⟩
          · exact absurd h (by decide)
          · exact h rfl
      · exact absurd h (by decide)
    · intro hmem
      rw [hsplit] at hmem
      rcases List.mem_append.mp hmem with h | h
      · rcases List.mem_append.mp h with h | h
        · exact absurd h (by decide)
        · rcases mem_replaceChar h with h | ⟨h, _⟩
          · exact absurd h (by decide)
          · rcases mem_replaceChar h with h | ⟨_, h⟩
            · exact absurd h (by decide)
            · exact h rfl
      · exact absurd h (by decide)
  · rfl

/-- C1 (amended): when the historical lookup returns a truthy price `h`
for (vendor, description) and the relative change `|new - old| / old` of
a numeric, truthy `unit_price` exceeds the threshold, the price
validator emits a `price_discrepancy` alert whose severity is `medium`
when the relative change is strictly below `0.2` and `high` otherwise —
so the item with `unit_price = 12.00` against historical price `10.00`
at threshold `0.05` (relative change exactly `0.2`) yields severity
`high`, not `medium` as the claim's example states. -/
theorem c1_price_discrepancy_amended :
    (∀ (threshold : ℚ) (histFn : Val → Val → Option ℚ) (vendor : Val)
        (l : List (String × Val)) (up h : ℚ),
      getKey l "unit_price" = some (.num up) → up ≠ 0 →
      histFn vendor ((getKey l "description").getD (.str "Unknown Item")) = some h →
      h ≠ 0 →
      threshold < |up - h| / h →
      validate_item_price threshold histFn vendor (.obj l) =
        ⟨"price_discrepancy", if |up - h| / h < 1/5 then "medium" else "high"⟩ ::
          (if 100 < up then [⟨"unusual_price", "low"⟩] else [])) ∧
    validate_item_price (5/100) (fun _ _ => some 10) (.str "ACME")
        (.obj [("description", .str "Widget"), ("unit_price", .num 12)]) =
      [⟨"price_discrepancy", "high"⟩] := by
  constructor
  · intro threshold histFn vendor l up h hup hup0 hh hh0 hth
    simp only [validate_item_price, validate_item_price_inner]
    rw [hup, hh]
    simp only [Option.getD_some, truthy, hup0, decide_not, pyNum]
    rw [if_neg (by simp [hup0]), if_neg hh0, if_pos hth]
    rfl
  · norm_num +decide [validate_item_price, validate_item_price_inner, getKey, truthy, pyNum]

/-- Witness for `c1_price_discrepancy_amended`: a relative change of
`0.1` (11.00 against 10.00) stays below `0.2` and yields severity
`medium`. -/
theorem c1_witness :
    validate_item_price (5/100) (fun _ _ => some 10) (.str "ACME")
        (.obj [("description", .str "Widget"), ("unit_price", .num 11)]) =
      [⟨"price_discrepancy", "medium"⟩] := by
  have h := c1_price_discrepancy_amended.1 (5/100) (fun _ _ => some 10) (.str "ACME")
      [("description", .str "Widget"), ("unit_price", .num 11)] 11 10
      (by rfl) (by norm_num) (by rfl) (by norm_num) (by norm_num)
  rw [h]
  norm_num

/-- C1 counterexample: the claim's own example — `unit_price = 12.00`,
historical price `10.00`, threshold `0.05` — produces a
`price_discrepancy` alert of severity `high` (the relative change is
exactly `0.2`, and the source's `price_change < 0.2` test makes that
`high`), not `medium` as claimed. -/
theorem c1_counterexample :
    validate_item_price (5/100) (fun _ _ => some 10) (.str "ACME")
        (.obj [("description", .str "Widget"), ("unit_price", .num 12)]) =
      [⟨"price_discrepancy", "high"⟩] ∧ ("high" : String) ≠ "medium" := by
  constructor
  · norm_num +decide [validate_item_price, validate_item_price_inner, getKey, truthy, pyNum]
  · decide

/-- C9: with a present (truthy, string) invoice number, a first
submission of a (vendor, invoice_number) pair yields no alert at all
(in particular no duplicate alert) and records the key
`"vendor:invoice_number"`, and the second identical submission yields
exactly one `duplicate_invoice_number` alert of severity `high`; the key
is recorded after checking regardless of outcome; a missing (falsy)
invoice number yields the single high-severity `missing_invoice_number`
alert and short-circuits without touching the key set. -/
theorem c9_duplicate_detection :
    (∀ (seen : List String) (l : List (String × Val)) (vendor inv : String),
      getKey l "vendor_name" = some (.str vendor) →
      getKey l "invoice_number" = some (.str inv) →
      inv ≠ "" →
      (vendor ++ ":" ++ inv) ∉ seen →
      (dup_validate seen (.obj l)).1 = [] ∧
      (dup_validate seen (.obj l)).2 = (vendor ++ ":" ++ inv) :: seen ∧
      (dup_validate ((vendor ++ ":" ++ inv) :: seen) (.obj l)).1 =
        [⟨"duplicate_invoice_number", "high"⟩]) ∧
    (∀ (seen : List String) (l : List (String × Val)) (v : Val),
      getKey l "invoice_number" = some v → truthy v = true →
      (pyStr ((getKey l "vendor_name").getD (.str "Unknown")) ++ ":" ++ pyStr v) ∈
        (dup_validate seen (.obj l)).2) ∧
    (∀ (seen : List String) (l : List (String × Val)),
      truthy ((getKey l "invoice_number").getD .null) = false →
      dup_validate seen (.obj l) = ([⟨"missing_invoice_number", "high"⟩], seen)) := by
  refine ⟨?_, ?_, ?_⟩
  · intro seen l vendor inv hv hi hine hnot
    simp only [dup_validate, dup_validate_inner]
    rw [hv, hi]
    simp only [Option.getD_some, truthy, hine, decide_not, decide_eq_true_eq]
    have hkey : (seen.contains (pyStr (Val.str vendor) ++ ":" ++ pyStr (Val.str inv))) = false := by
      simp only [pyStr]
      simpa using hnot
    have hkey₂ : (((vendor ++ ":" ++ inv) :: seen).contains
        (pyStr (Val.str vendor) ++ ":" ++ pyStr (Val.str inv))) = true := by
      simp [pyStr]
    simp [hkey, hkey₂, pyStr, hine, hnot]
  · intro seen l v hv htr
    simp only [dup_validate, dup_validate_inner]
    rw [hv]
    simp only [Option.getD_some, htr]
    simp
  · intro seen l hfalsy
    simp only [dup_validate, dup_validate_inner, hfalsy]
    rfl

/-- Witness for `c9_duplicate_detection`: submitting
`("ACME", "INV-1")` twice from a fresh validator state yields no alert,
then the high-severity duplicate alert, with the key recorded. -/
theorem c9_witness :
    (dup_validate [] (.obj [("vendor_name", .str "ACME"), ("invoice_number", .str "INV-1")])).1 = [] ∧
    (dup_validate [] (.obj [("vendor_name", .str "ACME"), ("invoice_number", .str "INV-1")])).2 =
      ["ACME:INV-1"] ∧
    (dup_validate ["ACME:INV-1"]
        (.obj [("vendor_name", .str "ACME"), ("invoice_number", .str "INV-1")])).1 =
      [⟨"duplicate_invoice_number", "high"⟩] := by
  have h := c9_duplicate_detection.1 []
      [("vendor_name", .str "ACME"), ("invoice_number", .str "INV-1")] "ACME" "INV-1"
      (by rfl) (by rfl) (by decide) (by simp)
  exact h

/-- C3: on a valid-format file with `tesseract` as the primary engine,
if the primary reports failure the manager invokes exactly the fallback
`easyocr` once (engine-call trace `["tesseract", "easyocr"]` — one
fallback level, no retry of the primary); and when both fail, the call
returns the fallback's failure result and the failed-extractions counter
increments by exactly 1 (successes unchanged). -/
theorem c3_fallback_once :
    ∀ (fileExists : Bool) (ext : String) (tess easy : OcrRes) (stats : EngineStats),
      validate_file fileExists ext = true →
      tess.success = false →
      (extract_text fileExists ext "tesseract" tess easy stats).2.2 = ["tesseract", "easyocr"] ∧
      (easy.success = false →
        (extract_text fileExists ext "tesseract" tess easy stats).1 = easy ∧
        (extract_text fileExists ext "tesseract" tess easy stats).2.1.failed_extractions =
          stats.failed_extractions + 1 ∧
        (extract_text fileExists ext "tesseract" tess easy stats).2.1.successful_extractions =
          stats.successful_extractions ∧
        (extract_text fileExists ext "tesseract" tess easy stats).2.1.total_processed =
          stats.total_processed + 1) := by
  intro fileExists ext tess easy stats hv hts
  simp only [extract_text, extract_with_engine, hv]
  simp only [Bool.true_eq_false, if_false, hts, ne_eq, if_true]
  have hcond : (false = true → False) ∧ ¬("tesseract" : String) = "easyocr" := by
    constructor
    · simp
    · decide
  refine ⟨by simp [hts], ?_⟩
  intro hes
  simp [hts, update_stats, hes]

/-- Witness for `c3_fallback_once`: both engines failing on a valid
`.pdf` file from fresh stats gives the trace
`["tesseract", "easyocr"]`, the fallback's failure result, and one
failed extraction. -/
theorem c3_witness :
    (extract_text true ".pdf" "tesseract" ⟨false, "", 0, "boom"⟩ ⟨false, "", 0, "down"⟩
        ⟨0, 0, 0, 0⟩).2.2 = ["tesseract", "easyocr"] ∧
    (extract_text true ".pdf" "tesseract" ⟨false, "", 0, "boom"⟩ ⟨false, "", 0, "down"⟩
        ⟨0, 0, 0, 0⟩).1 = ⟨false, "", 0, "down"⟩ ∧
    (extract_text true ".pdf" "tesseract" ⟨false, "", 0, "boom"⟩ ⟨false, "", 0, "down"⟩
        ⟨0, 0, 0, 0⟩).2.1.failed_extractions = 0 + 1 := by
  have h := c3_fallback_once true ".pdf" ⟨false, "", 0, "boom"⟩ ⟨false, "", 0, "down"⟩
      ⟨0, 0, 0, 0⟩ (by decide) (by rfl)
  exact ⟨h.1, (h.2 (by rfl)).1, (h.2 (by rfl)).2.1⟩

theorem extract_text_stats_eq (fileExists : Bool) (ext primary : String)
    (tess easy : OcrRes) (stats : EngineStats)
    (hv : validate_file fileExists ext = true) :
    (extract_text fileExists ext primary tess easy stats).2.1 =
      update_stats stats (extract_text fileExists ext primary tess easy stats).1 := by
  simp only [extract_text, hv]
  by_cases hc : (extract_with_engine tess easy primary).success = false ∧ primary ≠ "easyocr"
  · simp [hc]
  · simp [hc]

/-- C4 (amended): for every call that passes file validation, the stats
are updated — `total_processed` increments by 1, exactly one of
`successful_extractions` / `failed_extractions` increments by 1, and on
success the running mean over successful extractions absorbs the new
confidence (two successes with confidences 0.8 and 0.6 give average
0.7). Calls rejected for an invalid format return early without
touching the stats (see the counterexample), so the update is not
unconditional as the claim states. -/
theorem c4_stats_update_amended :
    (∀ (fileExists : Bool) (ext primary : String) (tess easy : OcrRes) (stats : EngineStats),
      validate_file fileExists ext = true →
      (extract_text fileExists ext primary tess easy stats).2.1.total_processed =
          stats.total_processed + 1 ∧
      ((extract_text fileExists ext primary tess easy stats).1.success = true →
        (extract_text fileExists ext primary tess easy stats).2.1.successful_extractions =
          stats.successful_extractions + 1 ∧
        (extract_text fileExists ext primary tess easy stats).2.1.failed_extractions =
          stats.failed_extractions ∧
        (extract_text fileExists ext primary tess easy stats).2.1.average_confidence =
          (stats.average_confidence * stats.successful_extractions +
            (extract_text fileExists ext primary tess easy stats).1.confidence) /
            (stats.successful_extractions + 1)) ∧
      ((extract_text fileExists ext primary tess easy stats).1.success = false →
        (extract_text fileExists ext primary tess easy stats).2.1.failed_extractions =
          stats.failed_extractions + 1 ∧
        (extract_text fileExists ext primary tess easy stats).2.1.successful_extractions =
          stats.successful_extractions ∧
        (extract_text fileExists ext primary tess easy stats).2.1.average_confidence =
          stats.average_confidence)) ∧
    (update_stats (update_stats ⟨0, 0, 0, 0⟩ ⟨true, "a", 8/10, ""⟩)
        ⟨true, "b", 6/10, ""⟩).average_confidence = 7/10 := by
  constructor
  · intro fileExists ext primary tess easy stats hv
    rw [extract_text_stats_eq fileExists ext primary tess easy stats hv]
    refine ⟨?_, ?_, ?_⟩
    · cases hr : (extract_text fileExists ext primary tess easy stats).1.success <;>
        simp [update_stats, hr]
    · intro hr
      simp only [update_stats, hr, if_true]
      refine ⟨by trivial, by trivial, ?_⟩
      push_cast
      ring_nf
    · intro hr
      simp [update_stats, hr]
  · norm_num [update_stats]

/-- Witness for `c4_stats_update_amended`: a successful call on a valid
`.pdf` from fresh stats bumps `total_processed` to 1. -/
theorem c4_witness :
    (extract_text true ".pdf" "tesseract" ⟨true, "text", 8/10, ""⟩ ⟨true, "", 0, ""⟩
        ⟨0, 0, 0, 0⟩).2.1.total_processed = 0 + 1 := by
  have h := c4_stats_update_amended.1 true ".pdf" "tesseract" ⟨true, "text", 8/10, ""⟩
      ⟨true, "", 0, ""⟩ ⟨0, 0, 0, 0⟩ (by decide)
  exact h.1

/-- C4 counterexample: a call on an invalid-format file (`.txt`) leaves
EngineStats completely unchanged — `total_processed` does not increment,
contradicting the claim's "regardless of outcome (including
invalid-format input)". -/
theorem c4_counterexample :
    validate_file true ".txt" = false ∧
    (extract_text true ".txt" "tesseract" ⟨true, "t", 9/10, ""⟩ ⟨true, "t", 9/10, ""⟩
        ⟨0, 0, 0, 0⟩).2.1 = ⟨0, 0, 0, 0⟩ := by
  exact ⟨by decide, rfl⟩

/-- C2 (amended): a validator's internal exception never propagates —
the validator's own try/except converts it into a single high-severity
alert typed `price_validation_error` (resp.
`duplicate_validation_error`) in place of that validator's output, the
other validator still runs, and the pipeline still completes with
`success = true` (validation never aborts a run: every pipeline result
is a success or one of the two upstream abort errors). The chain-level
`validation_error` alert of the claim would require an exception to
escape a validator itself, which the validators' own handlers prevent. -/
theorem c2_validator_isolation_amended :
    (∀ (threshold : ℚ) (histFn : Val → Val → Option ℚ) (seen : List String)
        (d : Val) (e : String),
      price_validate_inner threshold histFn d = .error e →
      (validate_data threshold histFn seen d).1 =
        ⟨"price_validation_error", "high"⟩ :: (dup_validate seen d).1) ∧
    (∀ (threshold : ℚ) (histFn : Val → Val → Option ℚ) (seen : List String)
        (d : Val) (e : String),
      dup_validate_inner seen d = .error e →
      (validate_data threshold histFn seen d).1 =
        price_validate threshold histFn d ++ [⟨"duplicate_validation_error", "high"⟩] ∧
      (validate_data threshold histFn seen d).2 = seen) ∧
    (∀ (ocrRes : OcrRes) (llm : String → Except String Val) (threshold : ℚ)
        (histFn : Val → Val → Option ℚ) (seen : List String),
      (parse_invoice ocrRes llm threshold histFn seen).1.success = true ∨
      (parse_invoice ocrRes llm threshold histFn seen).1.error = "OCR extraction failed" ∨
      (parse_invoice ocrRes llm threshold histFn seen).1.error = "LLM extraction failed") := by
  refine ⟨?_, ?_, ?_⟩
  · intro threshold histFn seen d e hpe
    simp [validate_data, price_validate, hpe]
  · intro threshold histFn seen d e hde
    simp [validate_data, dup_validate, hde]
  · intro ocrRes llm threshold histFn seen
    by_cases hoc : ocrRes.success = false
    · right
      left
      simp [parse_invoice, hoc]
    · rcases hx : extract_structured_data llm (preprocess_text ocrRes.text) with e | ⟨data, conf⟩
      · right
        right
        simp [parse_invoice, hoc, hx]
      · left
        simp [parse_invoice, hoc, hx]

/-- Witness for `c2_validator_isolation_amended`: concrete instances of
all three parts — a record with non-iterable `items` makes the price
validator's body raise and the chain emit `price_validation_error`
followed by the duplicate validator's (empty) output; a non-dict record
makes the duplicate validator's body raise, contributing
`duplicate_validation_error` with the seen-set unchanged; and a failing
OCR result gives the `"OCR extraction failed"` abort. -/
theorem c2_witness :
    (validate_data (5/100) get_historical_price_stub [] itemsNotIterableRecord).1 =
      ⟨"price_validation_error", "high"⟩ :: (dup_validate [] itemsNotIterableRecord).1 ∧
    (validate_data (5/100) get_historical_price_stub [] (.num 3)).1 =
      price_validate (5/100) get_historical_price_stub (.num 3) ++
        [⟨"duplicate_validation_error", "high"⟩] ∧
    ((parse_invoice ⟨false, "", 0, "engine down"⟩ (fun _ => .error "no call") (5/100)
        get_historical_price_stub []).1.success = true ∨
      (parse_invoice ⟨false, "", 0, "engine down"⟩ (fun _ => .error "no call") (5/100)
        get_historical_price_stub []).1.error = "OCR extraction failed" ∨
      (parse_invoice ⟨false, "", 0, "engine down"⟩ (fun _ => .error "no call") (5/100)
        get_historical_price_stub []).1.error = "LLM extraction failed") := by
  refine ⟨?_, ?_, ?_⟩
  · exact c2_validator_isolation_amended.1 (5/100) get_historical_price_stub []
      itemsNotIterableRecord "TypeError: object is not iterable" (by rfl)
  · exact (c2_validator_isolation_amended.2.1 (5/100) get_historical_price_stub []
      (.num 3) "AttributeError" (by rfl)).1
  · exact c2_validator_isolation_amended.2.2 ⟨false, "", 0, "engine down"⟩
      (fun _ => .error "no call") (5/100) get_historical_price_stub []

/-- C2 counterexample: on a structurally valid record whose `items`
entry is the number `5`, the price validator's body raises `TypeError`
while iterating, yet the chain's output is the single high-severity
alert of type `price_validation_error` — not `validation_error` as the
claim states (and the pipeline still reports `success = true` for this
record, as the amended theorem shows in general). -/
theorem c2_counterexample :
    price_validate_inner (5/100) get_historical_price_stub itemsNotIterableRecord =
      .error "TypeError: object is not iterable" ∧
    (validate_data (5/100) get_historical_price_stub [] itemsNotIterableRecord).1 =
      [⟨"price_validation_error", "high"⟩] ∧
    ("price_validation_error" : String) ≠ "validation_error" := by
  refine ⟨rfl, rfl, by decide⟩

theorem checkRequired_obj (l : List (String × Val)) (fs : List String) :
    checkRequired (.obj l) fs = .ok (fs.all (fieldTruthy l)) := by
  induction fs with
  | nil => rfl
  | cons f fs ih =>
    simp only [checkRequired, requiredFieldOk, List.all_cons]
    cases hv : fieldTruthy l f
    · simp [hv]
    · simp [hv, ih]

theorem itemHasKeys_iff (it : Val) :
    itemHasKeys it = true ↔
      ∃ il, it = Val.obj il ∧
        (∃ p ∈ il, p.1 = "description") ∧ (∃ p ∈ il, p.1 = "total") := by
  cases it <;> simp [itemHasKeys, List.any_eq_true]

theorem itemsStructureOk_iff (l : List (String × Val)) :
    itemsStructureOk (.obj l) = true ↔
      (∀ items, getKey l "items" = some (.arr items) →
        ∀ it ∈ items, ∃ il, it = Val.obj il ∧
          (∃ p ∈ il, p.1 = "description") ∧ (∃ p ∈ il, p.1 = "total")) := by
  simp only [itemsStructureOk]
  cases hit : getKey l "items" with
  | none => simp [hit]
  | some v =>
    cases v <;> simp [hit, List.all_eq_true, itemHasKeys_iff]

/-- C6: structured extraction succeeds only when the four required
fields `vendor_name`, `invoice_number`, `invoice_date`, `total` are all
present and truthy and, when `items` is present as a list, every element
is a dict containing at least the keys `description` and `total`
(first conjunct: the structure validation is exactly this condition);
and when the condition is violated — e.g. `total` missing — the
extraction stage fails and the whole pipeline aborts with error
`"LLM extraction failed"` (second conjunct). -/
theorem c6_required_fields :
    (∀ (l : List (String × Val)),
      validate_parsed_data (.obj l) = .ok true ↔
        ((∀ f ∈ (["vendor_name", "invoice_number", "invoice_date", "total"] : List String),
            fieldTruthy l f = true) ∧
         (∀ items, getKey l "items" = some (.arr items) →
            ∀ it ∈ items, ∃ il, it = Val.obj il ∧
              (∃ p ∈ il, p.1 = "description") ∧ (∃ p ∈ il, p.1 = "total")))) ∧
    (∀ (ocrRes : OcrRes) (llm : String → Except String Val) (threshold : ℚ)
        (histFn : Val → Val → Option ℚ) (seen : List String) (l : List (String × Val)),
      ocrRes.success = true →
      llm (preprocess_text ocrRes.text) = .ok (.obj l) →
      getKey l "total" = none →
      (parse_invoice ocrRes llm threshold histFn seen).1.success = false ∧
      (parse_invoice ocrRes llm threshold histFn seen).1.error = "LLM extraction failed") := by
  constructor
  · intro l
    simp only [validate_parsed_data, checkRequired_obj]
    cases hall : List.all ["vendor_name", "invoice_number", "invoice_date", "total"] (fieldTruthy l)
    · constructor
      · intro h
        simp at h
      · intro ⟨h₁, _⟩
        exact absurd (List.all_eq_true.mpr h₁) (by simp [hall])
    · have h₁ := List.all_eq_true.mp hall
      simp only [List.all_eq_true] at h₁ ⊢
      constructor
      · intro h
        refine ⟨h₁, ?_⟩
        have : itemsStructureOk (.obj l) = true := by
          simpa using h
        exact (itemsStructureOk_iff l).mp this
      · intro ⟨_, h₂⟩
        simpa using (itemsStructureOk_iff l).mpr h₂
  · intro ocrRes llm threshold histFn seen l hoc hllm htot
    have hft : fieldTruthy l "total" = false := by
      simp [fieldTruthy, htot]
    have hall : List.all ["vendor_name", "invoice_number", "invoice_date", "total"]
        (fieldTruthy l) = false := by
      rw [List.all_eq_false]
      exact ⟨"total", by simp, by simp [hft]⟩
    have hval : validate_parsed_data (.obj l) = .ok false := by
      simp [validate_parsed_data, checkRequired_obj, hall]
    have hx : extract_structured_data llm (preprocess_text ocrRes.text) =
        .error "Invalid data structure returned by LLM" := by
      simp [extract_structured_data, hllm, hval]
    have hocc : ¬ ocrRes.success = false := by
      simp [hoc]
    constructor <;> simp [parse_invoice, hocc, hx]

/-- Witness for `c6_required_fields`: a response missing `total` makes
the pipeline fail with `"LLM extraction failed"`. -/
theorem c6_witness :
    (parse_invoice ⟨true, "text", 8/10, ""⟩
        (fun _ => .ok (.obj [("vendor_name", .str "ACME"), ("invoice_number", .str "1"),
          ("invoice_date", .str "2024-01-01")]))
        (5/100) get_historical_price_stub []).1.success = false ∧
    (parse_invoice ⟨true, "text", 8/10, ""⟩
        (fun _ => .ok (.obj [("vendor_name", .str "ACME"), ("invoice_number", .str "1"),
          ("invoice_date", .str "2024-01-01")]))
        (5/100) get_historical_price_stub []).1.error = "LLM extraction failed" := by
  exact c6_required_fields.2 ⟨true, "text", 8/10, ""⟩
      (fun _ => .ok (.obj [("vendor_name", .str "ACME"), ("invoice_number", .str "1"),
        ("invoice_date", .str "2024-01-01")]))
      (5/100) get_historical_price_stub []
      [("vendor_name", .str "ACME"), ("invoice_number", .str "1"),
        ("invoice_date", .str "2024-01-01")]
      (by rfl) (by rfl) (by rfl)

theorem coerceField_error_eq {l l' : List (String × Val)} {k : String}
    (h : coerceField l k = .error l') : l' = l := by
  unfold coerceField at h
  rcases hg : getKey l k with _ | v
  · simp [hg] at h
  · by_cases ht : truthy v = true
    · rcases hm : coerceMoney v with _ | q
      · simp [hg, ht, hm] at h
        exact h.symm
      · simp [hg, ht, hm] at h
    · have htf : truthy v = false := bool_eq_false ht
      simp [hg, htf] at h

theorem coerceField_ok_getKey_other {l l' : List (String × Val)} {k : String} (k' : String)
    (h : coerceField l k = .ok l') (hne : k' ≠ k) : getKey l' k' = getKey l k' := by
  unfold coerceField at h
  rcases hg : getKey l k with _ | v
  · simp [hg] at h
    rw [← h]
  · by_cases ht : truthy v = true
    · rcases hm : coerceMoney v with _ | q
      · simp [hg, ht, hm] at h
      · simp [hg, ht, hm] at h
        rw [← h]
        exact getKey_objSet_other l k k' (.num q) hne
    · have htf : truthy v = false := bool_eq_false ht
      simp [hg, htf] at h
      rw [← h]

/-- C8 (amended): the coercion stage never aborts and never touches a
field other than `total`, `subtotal`, `tax` and `items` — for every
record it returns a record agreeing with the input on every other key,
whether or not an exception fired; but when an exception fires mid-way
the coercions already applied before the raise point are retained
(see the counterexample), so the record is not returned unmodified as
the claim states. -/
theorem c8_fail_open_amended :
    ∀ (l : List (String × Val)) (k : String),
      k ≠ "total" → k ≠ "subtotal" → k ≠ "tax" → k ≠ "items" →
      ∃ l₁, convert_data_types (.obj l) = .obj l₁ ∧ getKey l₁ k = getKey l k := by
  intro l k h1 h2 h3 h4
  cases ha : coerceField l "total" with
  | error la =>
    have hla := coerceField_error_eq ha
    subst hla
    exact ⟨la, by simp [convert_data_types, convert_data_types_inner, ha], rfl⟩
  | ok la =>
    have pa : getKey la k = getKey l k := coerceField_ok_getKey_other k ha h1
    cases hb : coerceField la "subtotal" with
    | error lb =>
      have hlb := coerceField_error_eq hb
      subst hlb
      exact ⟨lb, by simp [convert_data_types, convert_data_types_inner, ha, hb], pa⟩
    | ok lb =>
      have pb : getKey lb k = getKey l k :=
        (coerceField_ok_getKey_other k hb h2).trans pa
      cases hc : coerceField lb "tax" with
      | error lc =>
        have hlc := coerceField_error_eq hc
        subst hlc
        exact ⟨lc, by simp [convert_data_types, convert_data_types_inner, ha, hb, hc], pb⟩
      | ok lc =>
        have pc : getKey lc k = getKey l k :=
          (coerceField_ok_getKey_other k hc h3).trans pb
        rcases hd : getKey lc "items" with _ | v
        · exact ⟨lc, by simp [convert_data_types, convert_data_types_inner, ha, hb, hc, hd], pc⟩
        · match v, hd with
          | .arr items, hd =>
            cases he : convert_items items with
            | error items₁ =>
              refine ⟨objSet lc "items" (.arr items₁),
                by simp [convert_data_types, convert_data_types_inner, ha, hb, hc, hd, he], ?_⟩
              exact (getKey_objSet_other lc "items" k (.arr items₁) h4).trans pc
            | ok items₁ =>
              refine ⟨objSet lc "items" (.arr items₁),
                by simp [convert_data_types, convert_data_types_inner, ha, hb, hc, hd, he], ?_⟩
              exact (getKey_objSet_other lc "items" k (.arr items₁) h4).trans pc
          | .null, hd =>
            exact ⟨lc, by simp [convert_data_types, convert_data_types_inner, ha, hb, hc, hd], pc⟩
          | .bool b, hd =>
            exact ⟨lc, by simp [convert_data_types, convert_data_types_inner, ha, hb, hc, hd], pc⟩
          | .num q, hd =>
            exact ⟨lc, by simp [convert_data_types, convert_data_types_inner, ha, hb, hc, hd], pc⟩
          | .str s, hd =>
            exact ⟨lc, by simp [convert_data_types, convert_data_types_inner, ha, hb, hc, hd], pc⟩
          | .obj o, hd =>
            exact ⟨lc, by simp [convert_data_types, convert_data_types_inner, ha, hb, hc, hd], pc⟩

/-- Witness for `c8_fail_open_amended`: on the record
`{total: "5", subtotal: "x", vendor_name: "ACME"}` (whose `subtotal`
coercion raises) the returned record still agrees with the input on
`vendor_name`. -/
theorem c8_witness :
    ∃ l₁, convert_data_types (.obj [("total", .str "5"), ("subtotal", .str "x"),
        ("vendor_name", .str "ACME")]) = .obj l₁ ∧
      getKey l₁ "vendor_name" =
        getKey [("total", .str "5"), ("subtotal", .str "x"), ("vendor_name", .str "ACME")]
          "vendor_name" := by
  exact c8_fail_open_amended
      [("total", .str "5"), ("subtotal", .str "x"), ("vendor_name", .str "ACME")]
      "vendor_name" (by decide) (by decide) (by decide) (by decide)

/-- C8 counterexample: on `{total: "5", subtotal: "x"}` the coercion of
`total` succeeds and the coercion of `subtotal` then raises; the stage
catches the exception and returns the record with `total` already
coerced to the number `5` — the input is not returned unmodified. -/
theorem c8_counterexample :
    conversionRaised (.obj [("total", .str "5"), ("subtotal", .str "x")]) = true ∧
    convert_data_types (.obj [("total", .str "5"), ("subtotal", .str "x")]) =
      .obj [("total", .num 5), ("subtotal", .str "x")] ∧
    Val.str "5" ≠ Val.num 5 := by
  refine ⟨?_, ?_, by simp⟩
  · have h : coerceMoney (.str "5") = some ((1 : ℚ) * ((5:ℕ) : ℚ)) := rfl
    norm_num +decide [conversionRaised, convert_data_types_inner, coerceField, getKey, truthy,
      objSet, h, coerceMoney, removeChar, pyFloatString, stripWs, digitsVal]
  · have h : coerceMoney (.str "5") = some ((1 : ℚ) * ((5:ℕ) : ℚ)) := rfl
    have h5 : ((1 : ℚ) * ((5:ℕ) : ℚ)) = 5 := by norm_num
    rw [h5] at h
    have hx : coerceMoney (.str "x") = none := rfl
    norm_num +decide [convert_data_types, convert_data_types_inner, coerceField, getKey, truthy,
      objSet, h, hx]

theorem convert_items_forall₂ {items items₁ : List Val}
    (h : convert_items items = .ok items₁) :
    List.Forall₂ (fun a b => convert_item a = .ok b) items items₁ := by
  induction items generalizing items₁ with
  | nil =>
    simp [convert_items] at h
    subst h
    constructor
  | cons it rest ih =>
    unfold convert_items at h
    rcases hc : convert_item it with it₁ | it₁
    · simp [hc] at h
    · rcases hr : convert_items rest with rest₁ | rest₁
      · simp [hc, hr] at h
      · simp [hc, hr] at h
        rw [← h]
        exact List.Forall₂.cons hc (ih hr)

theorem forall₂_get?_exists {R : Val → Val → Prop} {as bs : List Val}
    (h : List.Forall₂ R as bs) :
    ∀ (i : ℕ) (a : Val), as.get? i = some a → ∃ b, bs.get? i = some b ∧ R a b := by
  induction h with
  | nil =>
    intro i a ha
    simp at ha
  | cons hR hrest ih =>
    intro i a ha
    cases i with
    | zero =>
      simp only [List.get?] at ha ⊢
      injection ha with ha
      exact ⟨_, rfl, ha ▸ hR⟩
    | succ n =>
      simp only [List.get?] at ha ⊢
      exact ih n a ha

theorem convert_item_quantity {il : List (String × Val)} {v : Val} {q : Val}
    (h : convert_item (.obj il) = .ok v)
    (hq : getKey il "quantity" = some q) (htr : truthy q = true)
    (hpf : pyFloatVal q = none) :
    ∃ il₁, v = .obj il₁ ∧ getKey il₁ "quantity" = some (.num 1) := by
  unfold convert_item at h
  simp only [hq, htr, if_true, hpf, Option.getD_none] at h
  rcases h2 : coerceField (objSet il "quantity" (.num 1)) "unit_price" with l₂ | l₂
  · simp [h2] at h
  · rcases h3 : coerceField l₂ "total" with l₃ | l₃
    · simp [h2, h3] at h
    · simp [h2, h3] at h
      refine ⟨l₃, h.symm, ?_⟩
      rw [coerceField_ok_getKey_other "quantity" h3 (by decide),
          coerceField_ok_getKey_other "quantity" h2 (by decide),
          getKey_objSet_self]

/-- C7 (amended): provided the coercion stage completes without an
exception (no earlier field's coercion raised), every line item whose
`quantity` is present, truthy and unparseable as a number comes out with
`quantity` set to the fixed default `1.0`; when an earlier coercion
raises — e.g. an unparseable `total` — the stage's fail-open handler
returns the record with the quantity unchanged (see the
counterexample), so the substitution is not unconditional as the claim
states. -/
theorem c7_quantity_default_amended :
    ∀ (l : List (String × Val)) (items : List Val) (i : ℕ) (il : List (String × Val)) (q : Val),
      conversionRaised (.obj l) = false →
      getKey l "items" = some (.arr items) →
      items.get? i = some (.obj il) →
      getKey il "quantity" = some q →
      truthy q = true →
      pyFloatVal q = none →
      ∃ (l₁ : List (String × Val)) (items₁ : List Val) (il₁ : List (String × Val)),
        convert_data_types (.obj l) = .obj l₁ ∧
        getKey l₁ "items" = some (.arr items₁) ∧
        items₁.get? i = some (.obj il₁) ∧
        getKey il₁ "quantity" = some (.num 1) := by
  intro l items i il q hok hitems hget hq htr hpf
  rcases ha : coerceField l "total" with la | la
  · exfalso
    unfold conversionRaised convert_data_types_inner at hok
    simp [ha] at hok
  · rcases hb : coerceField la "subtotal" with lb | lb
    · exfalso
      unfold conversionRaised convert_data_types_inner at hok
      simp [ha, hb] at hok
    · rcases hc : coerceField lb "tax" with lc | lc
      · exfalso
        unfold conversionRaised convert_data_types_inner at hok
        simp [ha, hb, hc] at hok
      · have hitems₃ : getKey lc "items" = some (.arr items) := by
          rw [coerceField_ok_getKey_other "items" hc (by decide),
              coerceField_ok_getKey_other "items" hb (by decide),
              coerceField_ok_getKey_other "items" ha (by decide), hitems]
        rcases he : convert_items items with items₁ | items₁
        · exfalso
          unfold conversionRaised convert_data_types_inner at hok
          simp [ha, hb, hc, hitems₃, he] at hok
        · have hconv : convert_data_types (.obj l) =
              .obj (objSet lc "items" (.arr items₁)) := by
            unfold convert_data_types convert_data_types_inner
            simp [ha, hb, hc, hitems₃, he]
          rcases forall₂_get?_exists (convert_items_forall₂ he) i (.obj il) hget with
            ⟨b, hbg, hbr⟩
          rcases convert_item_quantity hbr hq htr hpf with ⟨il₁, hb₁, hq₁⟩
          refine ⟨objSet lc "items" (.arr items₁), items₁, il₁, hconv,
            getKey_objSet_self lc "items" (.arr items₁), ?_, hq₁⟩
          rw [hb₁] at hbg
          exact hbg

/-- Witness for `c7_quantity_default_amended`: on
`{total: "5", items: [{quantity: "I", description: "W"}]}` the stage
completes cleanly and the unparseable quantity `"I"` comes out as the
number `1`. -/
theorem c7_witness :
    ∃ (l₁ : List (String × Val)) (items₁ : List Val) (il₁ : List (String × Val)),
      convert_data_types (.obj [("total", .str "5"),
          ("items", .arr [.obj [("quantity", .str "I"), ("description", .str "W")]])]) =
        .obj l₁ ∧
      getKey l₁ "items" = some (.arr items₁) ∧
      items₁.get? 0 = some (.obj il₁) ∧
      getKey il₁ "quantity" = some (.num 1) := by
  exact c7_quantity_default_amended
      [("total", .str "5"),
        ("items", .arr [.obj [("quantity", .str "I"), ("description", .str "W")]])]
      [.obj [("quantity", .str "I"), ("description", .str "W")]] 0
      [("quantity", .str "I"), ("description", .str "W")] (.str "I")
      (by rfl) (by rfl) (by rfl) (by rfl) (by rfl) (by rfl)

/-- C7 counterexample: a record containing a line item with the
unparseable quantity `"I"` but also an unparseable `total` ("abc"): the
`total` coercion raises before the items loop runs, the fail-open
handler returns the record as-is, and the quantity is left as the string
`"I"` — not set to `1.0` as the claim states for every such item. -/
theorem c7_counterexample :
    convert_data_types (.obj [("total", .str "abc"),
        ("items", .arr [.obj [("description", .str "W"), ("quantity", .str "I"),
          ("total", .str "5")]])]) =
      .obj [("total", .str "abc"),
        ("items", .arr [.obj [("description", .str "W"), ("quantity", .str "I"),
          ("total", .str "5")]])] ∧
    truthy (.str "I") = true ∧ pyFloatVal (.str "I") = none ∧
    Val.str "I" ≠ Val.num 1 := by
  refine ⟨?_, rfl, rfl, by simp⟩
  have habc : coerceMoney (.str "abc") = none := rfl
  simp [convert_data_types, convert_data_types_inner, coerceField, getKey, truthy, habc]

theorem findAux_eq_none {c : Char} {l : List Char} (h : c ∉ l) : findAux c l = none := by
  induction l with
  | nil => rfl
  | cons a rest ih =>
    simp only [List.mem_cons, not_or] at h
    simp [findAux, Ne.symm h.1, ih h.2]

theorem findAux_cons_self (c : Char) (l : List Char) : findAux c (c :: l) = some 0 := by
  simp [findAux]

theorem findAux_append_none {c : Char} {l₁ l₂ : List Char} (h : findAux c l₁ = none) :
    findAux c (l₁ ++ l₂) = (findAux c l₂).map (· + l₁.length) := by
  induction l₁ with
  | nil =>
    cases hx : findAux c l₂ <;> simp [hx]
  | cons a rest ih =>
    by_cases ha : a = c
    · simp [findAux, ha] at h
    · simp only [findAux, ha, if_false] at h ⊢
      have h₁ : findAux c rest = none := by
        cases hr : findAux c rest <;> simp [hr] at h ⊢
      rw [show rest.append l₂ = rest ++ l₂ from rfl, ih h₁]
      cases hx : findAux c l₂ <;> simp [hx]
      omega

/-- C5: the structured-extraction client recovers JSON by slicing from
the first `{` to the last `}` — a response with no `{` fails with
`NoJsonFound`; at most two parse attempts are ever made and a
`MalformedJson` failure takes exactly the one repair retry; and for
every response that is a valid JSON object (as judged by the JSON
parser `loads`) wrapped in brace-free leading/trailing prose, the client
returns exactly the enclosed object with no parse error. -/
theorem c5_json_recovery :
    (∀ (loads : String → Option Val) (text : String),
      pyFind text '{' = -1 →
      (generate_structured loads text).1 = .error .noJsonFound) ∧
    (∀ (loads : String → Option Val) (text : String),
      (generate_structured loads text).2.length ≤ 2 ∧
      ((generate_structured loads text).1 = .error .malformedJson →
        (generate_structured loads text).2.length = 2)) ∧
    (∀ (loads : String → Option Val) (pre objText post : String) (v : Val),
      '{' ∉ pre.toList → '}' ∉ pre.toList →
      '{' ∉ post.toList → '}' ∉ post.toList →
      objText.toList.head? = some '{' →
      objText.toList.getLast? = some '}' →
      loads objText = some v →
      (generate_structured loads (pre ++ objText ++ post)).1 = .ok v) := by
  refine ⟨?_, ?_, ?_⟩
  · intro loads text h
    simp only [generate_structured, h]
    simp
  · intro loads text
    constructor
    · simp only [generate_structured]
      split
      · split
        · simp
        · split
          · simp
          · simp
      · simp
    · simp only [generate_structured]
      split
      · split
        · simp
        · split
          · simp
          · simp
      · simp
  · intro loads pre objText post v hpre1 hpre2 hpost1 hpost2 hhead hlast hloads
    obtain ⟨M, hO⟩ : ∃ M, objText.toList = '{' :: M := by
      cases ho : objText.toList with
      | nil => rw [ho] at hhead; simp at hhead
      | cons a M =>
        rw [ho] at hhead
        simp at hhead
        exact ⟨M, by rw [hhead]⟩
    obtain ⟨M₂, hOrev⟩ : ∃ M₂, objText.toList.reverse = '}' :: M₂ := by
      have hh : objText.toList.reverse.head? = some '}' := by
        rw [List.head?_reverse, hlast]
      cases ho : objText.toList.reverse with
      | nil => rw [ho] at hh; simp at hh
      | cons a M₂ =>
        rw [ho] at hh
        simp at hh
        exact ⟨M₂, by rw [hh]⟩
    have htl : (pre ++ objText ++ post).toList =
        pre.toList ++ objText.toList ++ post.toList := by
      rw [toList_append, toList_append]
    have hOlen : 0 < objText.toList.length := by
      rw [hO]
      simp
    have hfind : pyFind (pre ++ objText ++ post) '{' = (pre.toList.length : Int) := by
      unfold pyFind
      rw [htl, List.append_assoc, findAux_append_none (findAux_eq_none hpre1), hO,
        List.cons_append, findAux_cons_self]
      simp
    have hrfind : pyRfind (pre ++ objText ++ post) '}' =
        ((pre.toList.length + objText.toList.length : ℕ) : Int) - 1 := by
      unfold pyRfind
      have hrev : (pre.toList ++ objText.toList ++ post.toList).reverse =
          post.toList.reverse ++ (objText.toList.reverse ++ pre.toList.reverse) := by
        rw [List.reverse_append, List.reverse_append]
      rw [htl, hrev,
        findAux_append_none (findAux_eq_none (by simpa using hpost2)), hOrev,
        List.cons_append, findAux_cons_self]
      simp [List.length_append, List.length_reverse]
      omega
    have hcond : ((pre.toList.length : Int) ≠ -1 ∧
        ((pre.toList.length + objText.toList.length : ℕ) : Int) - 1 + 1 ≠ 0) := by
      constructor <;> omega
    have hslice : pySlice (pre ++ objText ++ post) ((pre.toList.length : Int)).toNat
        (((pre.toList.length + objText.toList.length : ℕ) : Int) - 1 + 1).toNat = objText := by
      unfold pySlice
      have h1 : ((pre.toList.length : Int)).toNat = pre.toList.length := by simp
      have h2 : (((pre.toList.length + objText.toList.length : ℕ) : Int) - 1 + 1).toNat =
          pre.toList.length + objText.toList.length := by omega
      rw [h1, h2, htl, List.append_assoc, List.drop_left]
      have h3 : pre.toList.length + objText.toList.length - pre.toList.length =
          objText.toList.length := by omega
      rw [h3, List.take_left]
      exact mk_toList objText
    simp only [generate_structured, hfind, hrfind, if_pos hcond, hslice, hloads]

/-- Witness for `c5_json_recovery`: a concrete JSON object wrapped in
prose is recovered exactly, a brace-free response fails with
`NoJsonFound`, and the traces stay within two parse attempts. -/
theorem c5_witness :
    (generate_structured
        (fun s => if s = "\x7b\x22a\x22: 1\x7d" then some (.obj [("a", .num 1)]) else none)
        ("Here is the JSON you asked for: " ++ "\x7b\x22a\x22: 1\x7d" ++ " Hope this helps!")).1 =
      .ok (.obj [("a", .num 1)]) ∧
    (generate_structured (fun _ => none) "no braces here").1 = .error .noJsonFound ∧
    (generate_structured (fun _ => none) "prose \x7b bad json \x7d prose").2.length ≤ 2 := by
  refine ⟨?_, ?_, ?_⟩
  · exact c5_json_recovery.2.2
      (fun s => if s = "\x7b\x22a\x22: 1\x7d" then some (.obj [("a", .num 1)]) else none)
      "Here is the JSON you asked for: " "\x7b\x22a\x22: 1\x7d" " Hope this helps!"
      (.obj [("a", .num 1)])
      (by decide) (by decide) (by decide) (by decide) (by rfl) (by rfl) (by rfl)
  · exact c5_json_recovery.1 (fun _ => none) "no braces here" (by rfl)
  · exact (c5_json_recovery.2.1 (fun _ => none) "prose \x7b bad json \x7d prose").1

end BevScan
